import Mathlib

/-
Verification development for the Lampster BLE lamp driver.

The embedding models, in order:
  - the BLE command constants (constants.py),
  - the color/state data model (models.py, with construction-time range
    validation modelled as a fallible constructor),
  - the integration client (custom_components/lampster/lampster/client.py):
    each command is a function from a transport oracle and a client value to
    an outcome holding the raised error (if any), the post-call locally
    tracked state, and the trace of BLE actions (characteristic writes with
    their response flag, and sleeps) the call performed, in order,
  - the discovery filter and empty-result behavior (discover),
  - the poll-reconciliation predicate (coordinator.py, _needs_poll).

The transport oracle `ok : Nat -> Bool` says whether the n-th
write_gatt_char call of the method (0-based, counting writes made inside
nested helper calls) succeeds; the first failing write aborts the sequence
exactly where the Python exception would propagate, so the outcome records
which state mutations had already happened at that point. Raised errors are
modelled by constructor: connectionError for ConnectionError, commandError
for CommandError with the chain of wrapper messages (outermost first, the
literal message prefixes from the source), discoveryError for
DiscoveryError.
-/

/-- Decidable equality on Except values, so that outcomes of the fallible
operations can be compared by evaluation. -/
instance exceptDecEq {ε α : Type} [DecidableEq ε] [DecidableEq α] :
    DecidableEq (Except ε α) := fun a b =>
  match a, b with
  | .ok x, .ok y =>
      if h : x = y then .isTrue (by rw [h]) else .isFalse (fun hc => h (Except.ok.inj hc))
  | .error x, .error y =>
      if h : x = y then .isTrue (by rw [h]) else .isFalse (fun hc => h (Except.error.inj hc))
  | .ok _, .error _ => .isFalse (fun hc => Except.noConfusion hc)
  | .error _, .ok _ => .isFalse (fun hc => Except.noConfusion hc)

namespace Lampster

/-- Mode command byte 0xC0 (constants.py, MODE_POWER_ON). -/
def MODE_POWER_ON : Int := 0xC0

/-- Mode command byte 0x40 (constants.py, MODE_POWER_OFF). -/
def MODE_POWER_OFF : Int := 0x40

/-- Mode command byte 0xA8 (constants.py, MODE_RGB). -/
def MODE_RGB : Int := 0xA8

/-- Mode command byte 0xC8 (constants.py, MODE_WHITE). -/
def MODE_WHITE : Int := 0xC8

/-- Observed idle mode byte 0x28 (constants.py, MODE_OFF). -/
def MODE_OFF : Int := 0x28

/-- An RGB color value as carried by models.RGBColor (fields red, green,
blue). Values are validated at construction by `mkRGBColor`. -/
structure RGBColor where
  red : Int
  green : Int
  blue : Int
deriving DecidableEq, Repr

/-- The per-channel range check `0 <= value <= 100` from
RGBColor.__post_init__ / WhiteColor.__post_init__. -/
def chanInRange (v : Int) : Bool := decide (0 ≤ v) && decide (v ≤ 100)

/-- RGBColor construction: __post_init__ validates red, green, blue in that
order and raises ValueError on the first out-of-range channel; modelled as
Except, so no value is produced on failure. -/
def mkRGBColor (r g b : Int) : Except String RGBColor :=
  if !chanInRange r then .error "red value must be 0-100"
  else if !chanInRange g then .error "green value must be 0-100"
  else if !chanInRange b then .error "blue value must be 0-100"
  else .ok ⟨r, g, b⟩

/-- RGBColor.to_bytes: 3 bytes, [red, green, blue]. -/
def RGBColor.to_bytes (c : RGBColor) : List Int := [c.red, c.green, c.blue]

/-- A white color value as carried by models.WhiteColor (fields warm,
cold). -/
structure WhiteColor where
  warm : Int
  cold : Int
deriving DecidableEq, Repr

/-- WhiteColor construction with __post_init__ range validation (warm then
cold), as Except. -/
def mkWhiteColor (w c : Int) : Except String WhiteColor :=
  if !chanInRange w then .error "warm value must be 0-100"
  else if !chanInRange c then .error "cold value must be 0-100"
  else .ok ⟨w, c⟩

/-- WhiteColor.to_bytes: 2 bytes, [warm, cold]. -/
def WhiteColor.to_bytes (c : WhiteColor) : List Int := [c.warm, c.cold]

/-- models.LampState: the locally tracked lamp state. `mode` is a string in
the source ("off", "white", "rgb", "unknown"). -/
structure LampState where
  is_on : Bool
  mode : String
  rgb_color : Option RGBColor := none
  white_color : Option WhiteColor := none
deriving DecidableEq, Repr

/-- The state established by LampsterClient.__init__:
LampState(is_on=False, mode="off") with both colors None. -/
def initialState : LampState := { is_on := false, mode := "off" }

/-- The three GATT characteristics the client writes or reads
(CHAR_MODE, CHAR_RGB, CHAR_WHITE). -/
inductive GattChar
  | mode
  | rgb
  | white
deriving DecidableEq, Repr

/-- One observable BLE action of a command: a characteristic write carrying
its payload and response flag, or an asyncio.sleep of the given
milliseconds. -/
inductive BLEAction
  | write (char : GattChar) (data : List Int) (response : Bool)
  | sleepMs (ms : Nat)
deriving DecidableEq, Repr

/-- A raised driver error: ConnectionError, CommandError (with the chain of
wrapper messages, outermost first), or DiscoveryError. -/
inductive LampErr
  | connectionError (msg : String)
  | commandError (msgs : List String)
  | discoveryError (msg : String)
deriving DecidableEq, Repr

/-- The client as far as a single command is concerned: whether a connected
transport is held, and the locally tracked state self._state. -/
structure Client where
  connected : Bool
  state : LampState
deriving DecidableEq, Repr

/-- The result of one command call: the raised error if the call raised
(none on success), the locally tracked state after the call (also after a
failed call, reflecting any mutations already performed), and the ordered
trace of BLE actions attempted. -/
structure Outcome where
  error : Option LampErr
  state : LampState
  trace : List BLEAction
deriving DecidableEq, Repr

/-- LampsterClient.power_on: checks connection; writes MODE_POWER_ON with
response, sleeps 0.4s, writes MODE_WHITE with response (both via
_write_mode), writes WHITE=[50,0] without response; only then sets
is_on=True, mode="white", white_color=WhiteColor(50,0). A failing write
raises CommandError("Failed to power on: ...") wrapping the inner
CommandError("Failed to write mode: ...") when the failure was inside
_write_mode. -/
def power_on (ok : Nat → Bool) (c : Client) : Outcome :=
  if !c.connected then
    ⟨some (.connectionError "Not connected to device"), c.state, []⟩
  else
    let w0 : BLEAction := .write GattChar.mode [ MODE_POWER_ON ] true
    if !ok 0 then
      ⟨some (.commandError ["Failed to power on", "Failed to write mode"]), c.state, [w0]⟩
    else
      let w1 : BLEAction := .write GattChar.mode [ MODE_WHITE ] true
      if !ok 1 then
        ⟨some (.commandError ["Failed to power on", "Failed to write mode"]), c.state,
          [w0, .sleepMs 400, w1]⟩
      else
        let w2 : BLEAction := .write GattChar.white [50, 0] false
        if !ok 2 then
          ⟨some (.commandError ["Failed to power on"]), c.state,
            [w0, .sleepMs 400, w1, w2]⟩
        else
          ⟨none,
            { c.state with is_on := true, mode := "white", white_color := some ⟨50, 0⟩ },
            [w0, .sleepMs 400, w1, w2]⟩

/-- LampsterClient.power_off: checks connection; writes MODE_WHITE with
response, sleeps 0.4s, writes WHITE=[0,0] without response, sleeps 0.1s,
writes RGB=[0,0,0] without response, sleeps 0.4s, writes MODE_POWER_OFF
with response; only then sets is_on=False, mode="off". -/
def power_off (ok : Nat → Bool) (c : Client) : Outcome :=
  if !c.connected then
    ⟨some (.connectionError "Not connected to device"), c.state, []⟩
  else
    let w0 : BLEAction := .write GattChar.mode [ MODE_WHITE ] true
    if !ok 0 then
      ⟨some (.commandError ["Failed to power off", "Failed to write mode"]), c.state, [w0]⟩
    else
      let w1 : BLEAction := .write GattChar.white [0, 0] false
      if !ok 1 then
        ⟨some (.commandError ["Failed to power off"]), c.state,
          [w0, .sleepMs 400, w1]⟩
      else
        let w2 : BLEAction := .write GattChar.rgb [0, 0, 0] false
        if !ok 2 then
          ⟨some (.commandError ["Failed to power off"]), c.state,
            [w0, .sleepMs 400, w1, .sleepMs 100, w2]⟩
        else
          let w3 : BLEAction := .write GattChar.mode [ MODE_POWER_OFF ] true
          if !ok 3 then
            ⟨some (.commandError ["Failed to power off", "Failed to write mode"]), c.state,
              [w0, .sleepMs 400, w1, .sleepMs 100, w2, .sleepMs 400, w3]⟩
          else
            ⟨none,
              { c.state with is_on := false, mode := "off" },
              [w0, .sleepMs 400, w1, .sleepMs 100, w2, .sleepMs 400, w3]⟩

/-- LampsterClient.set_rgb_mode: one _write_mode(MODE_RGB) (connection check
inside _write_mode), then self._state.mode = "rgb". On a transport failure
the CommandError("Failed to write mode: ...") propagates and the state is
untouched. -/
def set_rgb_mode (ok : Nat → Bool) (c : Client) : Outcome :=
  if !c.connected then
    ⟨some (.connectionError "Not connected to device"), c.state, []⟩
  else
    let w0 : BLEAction := .write GattChar.mode [ MODE_RGB ] true
    if !ok 0 then
      ⟨some (.commandError ["Failed to write mode"]), c.state, [w0]⟩
    else
      ⟨none, { c.state with mode := "rgb" }, [w0]⟩

/-- LampsterClient.set_white_mode: one _write_mode(MODE_WHITE), then
self._state.mode = "white". -/
def set_white_mode (ok : Nat → Bool) (c : Client) : Outcome :=
  if !c.connected then
    ⟨some (.connectionError "Not connected to device"), c.state, []⟩
  else
    let w0 : BLEAction := .write GattChar.mode [ MODE_WHITE ] true
    if !ok 0 then
      ⟨some (.commandError ["Failed to write mode"]), c.state, [w0]⟩
    else
      ⟨none, { c.state with mode := "white" }, [w0]⟩

/-- The wrapper-message chain of an inner exception as re-raised by an outer
`except Exception as e: raise CommandError(outer + str(e))`. -/
def innerMsgs : LampErr → List String
  | .commandError msgs => msgs
  | .connectionError _ => []
  | .discoveryError _ => []

/-- LampsterClient.set_rgb_color: checks connection; writes the RGB
characteristic with color.to_bytes() without response, sleeps 0.2s, calls
set_rgb_mode (which writes MODE_RGB with response and then mutates
self._state.mode to "rgb"), sleeps 0.4s; if self._state.is_on is false it
then calls _write_mode(MODE_POWER_ON) and sleeps 0.4s; finally sets
is_on=True and rgb_color=color. Any exception is re-raised as
CommandError("Failed to set RGB color: ..."); mutations already performed
by set_rgb_mode stay in place. The nested call's writes are counted by
shifting the transport oracle by one. -/
def set_rgb_color (ok : Nat → Bool) (c : Client) (color : RGBColor) : Outcome :=
  if !c.connected then
    ⟨some (.connectionError "Not connected to device"), c.state, []⟩
  else
    let w0 : BLEAction := .write GattChar.rgb color.to_bytes false
    if !ok 0 then
      ⟨some (.commandError ["Failed to set RGB color"]), c.state, [w0]⟩
    else
      let inner := set_rgb_mode (fun n => ok (n + 1)) c
      match inner.error with
      | some e =>
          ⟨some (.commandError ("Failed to set RGB color" :: innerMsgs e)), inner.state,
            [w0, .sleepMs 200] ++ inner.trace⟩
      | none =>
          let s1 := inner.state
          let tr1 := [w0, .sleepMs 200] ++ inner.trace ++ [.sleepMs 400]
          if !s1.is_on then
            let w2 : BLEAction := .write GattChar.mode [ MODE_POWER_ON ] true
            if !ok 2 then
              ⟨some (.commandError ["Failed to set RGB color", "Failed to write mode"]), s1,
                tr1 ++ [w2]⟩
            else
              ⟨none, { s1 with is_on := true, rgb_color := some color },
                tr1 ++ [w2, .sleepMs 400]⟩
          else
            ⟨none, { s1 with is_on := true, rgb_color := some color }, tr1⟩

/-- LampsterClient.set_white_color: same shape as set_rgb_color with the
white characteristic, set_white_mode, and white_color=color; errors are
wrapped as CommandError("Failed to set white color: ..."). -/
def set_white_color (ok : Nat → Bool) (c : Client) (color : WhiteColor) : Outcome :=
  if !c.connected then
    ⟨some (.connectionError "Not connected to device"), c.state, []⟩
  else
    let w0 : BLEAction := .write GattChar.white color.to_bytes false
    if !ok 0 then
      ⟨some (.commandError ["Failed to set white color"]), c.state, [w0]⟩
    else
      let inner := set_white_mode (fun n => ok (n + 1)) c
      match inner.error with
      | some e =>
          ⟨some (.commandError ("Failed to set white color" :: innerMsgs e)), inner.state,
            [w0, .sleepMs 200] ++ inner.trace⟩
      | none =>
          let s1 := inner.state
          let tr1 := [w0, .sleepMs 200] ++ inner.trace ++ [.sleepMs 400]
          if !s1.is_on then
            let w2 : BLEAction := .write GattChar.mode [ MODE_POWER_ON ] true
            if !ok 2 then
              ⟨some (.commandError ["Failed to set white color", "Failed to write mode"]), s1,
                tr1 ++ [w2]⟩
            else
              ⟨none, { s1 with is_on := true, white_color := some color },
                tr1 ++ [w2, .sleepMs 400]⟩
          else
            ⟨none, { s1 with is_on := true, white_color := some color }, tr1⟩

/-- LampsterClient.read_state, decode part: given the byte sequences the
three characteristic reads returned (the transport reads having succeeded),
parse them exactly as the source does. mode_bytes[0] on an empty read is an
IndexError and RGBColor/WhiteColor construction raises ValueError on
out-of-range bytes; both are swallowed by the method's `except Exception`
and re-raised as CommandError("Failed to read state: ..."). -/
def read_state (mode_bytes rgb_bytes white_bytes : List Int) :
    Except LampErr LampState :=
  match mode_bytes with
  | [] => .error (.commandError ["Failed to read state"])
  | mode_val :: _ =>
    let is_on := mode_val == MODE_POWER_ON || mode_val == MODE_RGB || mode_val == MODE_WHITE
    let mode :=
      if mode_val == MODE_RGB || mode_val == MODE_POWER_ON then
        (if mode_val == MODE_RGB then "rgb" else "white")
      else if mode_val == MODE_WHITE then "white"
      else if mode_val == MODE_POWER_OFF || mode_val == MODE_OFF then "off"
      else "unknown"
    let rgbRes : Except LampErr (Option RGBColor) :=
      if 3 ≤ rgb_bytes.length then
        match mkRGBColor (rgb_bytes.getD 0 0) (rgb_bytes.getD 1 0) (rgb_bytes.getD 2 0) with
        | .ok col => .ok (some col)
        | .error _ => .error (.commandError ["Failed to read state"])
      else .ok none
    match rgbRes with
    | .error e => .error e
    | .ok rgb_color =>
      let whiteRes : Except LampErr (Option WhiteColor) :=
        if 2 ≤ white_bytes.length then
          match mkWhiteColor (white_bytes.getD 0 0) (white_bytes.getD 1 0) with
          | .ok col => .ok (some col)
          | .error _ => .error (.commandError ["Failed to read state"])
        else .ok none
      match whiteRes with
      | .error e => .error e
      | .ok white_color => .ok ⟨is_on, mode, rgb_color, white_color⟩

/-- LampsterClient.refresh_state: replaces the locally tracked state with
the result of read_state; a read failure propagates and leaves the local
state untouched. -/
def refresh_state (c : Client) (mode_bytes rgb_bytes white_bytes : List Int) :
    Except LampErr Client :=
  (read_state mode_bytes rgb_bytes white_bytes).map (fun s => { c with state := s })

/-- A discovered BLE advertisement as the scanner reports it: optional
advertised name plus address. -/
structure BLEDevice where
  name : Option String
  address : String
deriving DecidableEq, Repr

/-- The discovery filter from LampsterClient.discover: keep a device iff it
has a name and the name contains DEVICE_NAME_PREFIX = "Lamp" as a
substring (Python `DEVICE_NAME_PREFIX in device.name`). -/
def isLampDevice (d : BLEDevice) : Bool :=
  match d.name with
  | some n => decide ("Lamp".toList <:+: n.toList)
  | none => false

/-- LampsterClient.discover, scan-result handling: filter the scanned
devices by name, and raise DiscoveryError("No Lampster devices found") when
the filtered list is empty; otherwise return the non-empty list. Both
source variants (the stop_on_first early-exit path, the full-timeout path,
and the standalone-package variant) end in this same check-and-raise. -/
def discover (devices : List BLEDevice) : Except LampErr (List BLEDevice) :=
  let lampster_devices := devices.filter isLampDevice
  if lampster_devices.isEmpty then
    .error (.discoveryError "No Lampster devices found")
  else
    .ok lampster_devices

/-- LampsterCoordinator._needs_poll (coordinator.py): poll when no previous
poll has happened (None) or when more than 30 seconds have elapsed.
Python float seconds are modelled as rationals. -/
def needs_poll (seconds_since_last_poll : Option ℚ) : Bool :=
  match seconds_since_last_poll with
  | none => true
  | some s => decide (s > 30)

/-- The mode strings the driver ever stores: "off", "white", "rgb" from
commands and the constructor, "unknown" only from decoding an unrecognized
mode byte. -/
def validMode (m : String) : Bool :=
  m == "off" || m == "white" || m == "rgb" || m == "unknown"

/-- The outermost CommandError wrapper message of a raised error, when the
error is a CommandError with a non-empty message chain. -/
def errHead : Option LampErr → Option String
  | some (.commandError (m :: _)) => some m
  | _ => none

/-- C3: power_on invoked from the initial off state (all transport writes
succeeding) produces exactly the ordered sequence MODE=POWER_ON (0xC0) with
response, a 400ms wait, MODE=WHITE (0xC8) with response, then WHITE=[50,0]
without response — three writes, with MODE=POWER_ON before MODE=WHITE — and
on success the locally tracked state is is_on=true, mode="white",
white_color=(50,0). -/
theorem power_on_initial_behavior :
    (power_on (fun _ => true) ⟨true, initialState⟩).error = none ∧
    (power_on (fun _ => true) ⟨true, initialState⟩).trace =
      [.write GattChar.mode [ MODE_POWER_ON ] true, .sleepMs 400,
       .write GattChar.mode [ MODE_WHITE ] true, .write GattChar.white [50, 0] false] ∧
    (power_on (fun _ => true) ⟨true, initialState⟩).state =
      { is_on := true, mode := "white", rgb_color := none, white_color := some ⟨50, 0⟩ } := by
  decide

/-- C6: the poll-reconciliation predicate returns true when no prior read
has occurred (None), and otherwise returns true exactly when the elapsed
seconds strictly exceed 30; in particular needs_poll(None)=true,
needs_poll(29.9)=false, needs_poll(30.1)=true. -/
theorem needs_poll_spec :
    needs_poll none = true ∧
    (∀ q : ℚ, needs_poll (some q) = true ↔ 30 < q) ∧
    needs_poll (some (299 / 10)) = false ∧
    needs_poll (some (301 / 10)) = true := by
  refine ⟨rfl, fun q => ?_, ?_, ?_⟩
  · simp [needs_poll]
  · simp only [needs_poll, decide_eq_false_iff_not]
    norm_num
  · simp only [needs_poll, decide_eq_true_eq]
    norm_num

/-- C7: for all integer channel triples with each channel in [0,100],
RGBColor(r,g,b).to_bytes() is the 3-byte sequence [r,g,b] in (red, green,
blue) order, and feeding those three bytes back through RGBColor
construction, as read_state does, reconstructs a value equal to the
original. -/
theorem rgb_to_bytes_roundtrip (r g b : Int)
    (h : 0 ≤ r ∧ r ≤ 100 ∧ 0 ≤ g ∧ g ≤ 100 ∧ 0 ≤ b ∧ b ≤ 100) :
    (RGBColor.mk r g b).to_bytes = [r, g, b] ∧
    mkRGBColor ((RGBColor.mk r g b).to_bytes.getD 0 0)
        ((RGBColor.mk r g b).to_bytes.getD 1 0)
        ((RGBColor.mk r g b).to_bytes.getD 2 0) = .ok (RGBColor.mk r g b) := by
  obtain ⟨h1, h2, h3, h4, h5, h6⟩ := h
  refine ⟨rfl, ?_⟩
  simp [RGBColor.to_bytes, mkRGBColor, chanInRange, h1, h2, h3, h4, h5, h6]

/-- Witness for the round-trip at the concrete color (10, 20, 30). -/
theorem rgb_to_bytes_roundtrip_witness :
    (RGBColor.mk 10 20 30).to_bytes = [10, 20, 30] ∧
    mkRGBColor ((RGBColor.mk 10 20 30).to_bytes.getD 0 0)
        ((RGBColor.mk 10 20 30).to_bytes.getD 1 0)
        ((RGBColor.mk 10 20 30).to_bytes.getD 2 0) = .ok (RGBColor.mk 10 20 30) :=
  rgb_to_bytes_roundtrip 10 20 30 (by norm_num)

/-- C8: constructing an RGBColor or WhiteColor succeeds (produces a value)
exactly when every channel lies in [0,100]; outside that range — covering
the boundary values 101 and -1 on any channel — construction fails and no
value is produced. -/
theorem color_construction_range (r g b w k : Int) :
    ((∃ col, mkRGBColor r g b = .ok col) ↔
      (0 ≤ r ∧ r ≤ 100) ∧ (0 ≤ g ∧ g ≤ 100) ∧ (0 ≤ b ∧ b ≤ 100)) ∧
    ((∃ col, mkWhiteColor w k = .ok col) ↔
      (0 ≤ w ∧ w ≤ 100) ∧ (0 ≤ k ∧ k ≤ 100)) := by
  constructor
  · unfold mkRGBColor
    split_ifs with h1 h2 h3 <;>
      simp_all [chanInRange] <;> omega
  · unfold mkWhiteColor
    split_ifs with h1 h2 <;>
      simp_all [chanInRange] <;> omega

/-- C5 counterexample: an empty scan result, or one with no device whose
name contains "Lamp", makes discover raise DiscoveryError instead of
returning the empty list as a normal outcome. -/
theorem discover_empty_raises_cex :
    discover [] = .error (.discoveryError "No Lampster devices found") ∧
    discover [⟨some "Foobar", "aa"⟩] =
      .error (.discoveryError "No Lampster devices found") := by
  decide

/-- C5 amended: when a scan completes with zero devices whose name contains
"Lamp", discover itself raises DiscoveryError("No Lampster devices found");
a successful discover never returns an empty list, so the empty case is
surfaced as an error by the driver, not left to the caller. -/
theorem discover_behavior (devices : List BLEDevice) :
    ((∀ d ∈ devices, isLampDevice d = false) →
      discover devices = .error (.discoveryError "No Lampster devices found")) ∧
    (∀ l, discover devices = .ok l → l ≠ []) := by
  constructor
  · intro h
    have hfil : devices.filter isLampDevice = [] := by
      rw [List.filter_eq_nil_iff]
      intro a ha
      simp [h a ha]
    simp [discover, hfil]
  · intro l hl
    unfold discover at hl
    by_cases hfil : (devices.filter isLampDevice).isEmpty
    · simp [hfil] at hl
    · simp [hfil] at hl
      subst hl
      simpa [List.isEmpty_iff] using hfil

/-- Witness for discover_behavior: a scan with only a non-matching device
raises, and the list a matching scan returns is non-empty. -/
theorem discover_behavior_witness :
    discover [⟨some "Foobar", "aa"⟩] =
      .error (.discoveryError "No Lampster devices found") ∧
    ([⟨some "My Lampster", "bb"⟩] : List BLEDevice) ≠ [] := by
  constructor
  · exact (discover_behavior [⟨some "Foobar", "aa"⟩]).1 (by decide)
  · exact (discover_behavior [⟨some "My Lampster", "bb"⟩]).2
      [⟨some "My Lampster", "bb"⟩] (by decide)

/-- C1 counterexample: from the initial off state, set_rgb_color with a
transport that fails on the third write (the trailing MODE=POWER_ON) raises,
yet the locally tracked state after the failed call differs from the state
before the call: the mode field has already been advanced to "rgb" by the
nested set_rgb_mode call. -/
theorem set_rgb_color_partial_advance_cex :
    (set_rgb_color (fun n => n != 2) ⟨true, initialState⟩ ⟨10, 20, 30⟩).error.isSome = true ∧
    ¬ (set_rgb_color (fun n => n != 2) ⟨true, initialState⟩ ⟨10, 20, 30⟩).state
        = initialState ∧
    (set_rgb_color (fun n => n != 2) ⟨true, initialState⟩ ⟨10, 20, 30⟩).state =
      { is_on := false, mode := "rgb" } := by
  decide

/-- C1 amended: for power_on and power_off, any transport failure leaves the
locally tracked state exactly as before the call; for set_rgb_color and
set_white_color a failure leaves is_on, rgb_color and white_color unchanged,
but the mode field may already have been advanced to the target mode (by the
nested mode-switch call) when the failure hits the trailing MODE=POWER_ON
write; the raised error's outermost message identifies the failing command,
though not always the individual step within it. -/
theorem multi_step_failure_no_partial_advance (ok : Nat → Bool) (s : LampState)
    (rc : RGBColor) (wc : WhiteColor) :
    ((power_on ok ⟨true, s⟩).error.isSome = true →
      (power_on ok ⟨true, s⟩).state = s ∧
      errHead (power_on ok ⟨true, s⟩).error = some "Failed to power on") ∧
    ((power_off ok ⟨true, s⟩).error.isSome = true →
      (power_off ok ⟨true, s⟩).state = s ∧
      errHead (power_off ok ⟨true, s⟩).error = some "Failed to power off") ∧
    ((set_rgb_color ok ⟨true, s⟩ rc).error.isSome = true →
      (set_rgb_color ok ⟨true, s⟩ rc).state.is_on = s.is_on ∧
      (set_rgb_color ok ⟨true, s⟩ rc).state.rgb_color = s.rgb_color ∧
      (set_rgb_color ok ⟨true, s⟩ rc).state.white_color = s.white_color ∧
      ((set_rgb_color ok ⟨true, s⟩ rc).state.mode = s.mode ∨
        (set_rgb_color ok ⟨true, s⟩ rc).state.mode = "rgb") ∧
      errHead (set_rgb_color ok ⟨true, s⟩ rc).error = some "Failed to set RGB color") ∧
    ((set_white_color ok ⟨true, s⟩ wc).error.isSome = true →
      (set_white_color ok ⟨true, s⟩ wc).state.is_on = s.is_on ∧
      (set_white_color ok ⟨true, s⟩ wc).state.rgb_color = s.rgb_color ∧
      (set_white_color ok ⟨true, s⟩ wc).state.white_color = s.white_color ∧
      ((set_white_color ok ⟨true, s⟩ wc).state.mode = s.mode ∨
        (set_white_color ok ⟨true, s⟩ wc).state.mode = "white") ∧
      errHead (set_white_color ok ⟨true, s⟩ wc).error = some "Failed to set white color") := by
  cases h0 : ok 0 <;> cases h1 : ok 1 <;> cases h2 : ok 2 <;> cases h3 : ok 3 <;>
    cases hon : s.is_on <;>
      simp [power_on, power_off, set_rgb_color, set_white_color, set_rgb_mode,
        set_white_mode, innerMsgs, errHead, h0, h1, h2, h3, hon]

/-- Witness for multi_step_failure_no_partial_advance: with every transport
write failing, each of the four commands raises while leaving the state of a
fresh client untouched except as the theorem allows. -/
theorem multi_step_failure_no_partial_advance_witness :
    (power_on (fun _ => false) ⟨true, initialState⟩).state = initialState ∧
    (power_off (fun _ => false) ⟨true, initialState⟩).state = initialState ∧
    (set_rgb_color (fun _ => false) ⟨true, initialState⟩ ⟨10, 20, 30⟩).state.is_on
      = initialState.is_on ∧
    (set_white_color (fun _ => false) ⟨true, initialState⟩ ⟨50, 0⟩).state.is_on
      = initialState.is_on := by
  have h := multi_step_failure_no_partial_advance (fun _ => false) initialState
    ⟨10, 20, 30⟩ ⟨50, 0⟩
  exact ⟨(h.1 (by decide)).1, (h.2.1 (by decide)).1,
    (h.2.2.1 (by decide)).1, (h.2.2.2 (by decide)).1⟩

/-- C2: with all transport writes succeeding, set_rgb_color from any state
issues the RGB color write (without response) strictly before the MODE=RGB
(0xA8) write (with response); when is_on was false it additionally issues
MODE=POWER_ON (0xC0) with response as its final write, and when is_on was
true it omits that write; on success the state is is_on=true, mode="rgb",
rgb_color=the given color (white_color untouched). The trace is stated
exactly, so the ordering claims are immediate from it. -/
theorem set_rgb_color_success_behavior (col : RGBColor) (s : LampState) :
    (set_rgb_color (fun _ => true) ⟨true, s⟩ col).error = none ∧
    (set_rgb_color (fun _ => true) ⟨true, s⟩ col).trace =
      [.write GattChar.rgb col.to_bytes false, .sleepMs 200,
       .write GattChar.mode [ MODE_RGB ] true, .sleepMs 400] ++
      (if s.is_on then []
       else [.write GattChar.mode [ MODE_POWER_ON ] true, .sleepMs 400]) ∧
    (set_rgb_color (fun _ => true) ⟨true, s⟩ col).state =
      { is_on := true, mode := "rgb", rgb_color := some col,
        white_color := s.white_color } := by
  cases hon : s.is_on <;>
    simp [set_rgb_color, set_rgb_mode, hon]

/-- C9: a successful set_rgb_mode or set_white_mode changes only the mode
field of the locally tracked state, leaving is_on and both colors unchanged;
and regardless of success or failure, set_rgb_color never touches
white_color and set_white_color never touches rgb_color. -/
theorem mode_switch_frame (ok : Nat → Bool) (s : LampState)
    (rc : RGBColor) (wc : WhiteColor) :
    ((set_rgb_mode ok ⟨true, s⟩).error = none →
      (set_rgb_mode ok ⟨true, s⟩).state = { s with mode := "rgb" }) ∧
    ((set_white_mode ok ⟨true, s⟩).error = none →
      (set_white_mode ok ⟨true, s⟩).state = { s with mode := "white" }) ∧
    (set_rgb_color ok ⟨true, s⟩ rc).state.white_color = s.white_color ∧
    (set_white_color ok ⟨true, s⟩ wc).state.rgb_color = s.rgb_color := by
  cases h0 : ok 0 <;> cases h1 : ok 1 <;> cases h2 : ok 2 <;> cases hon : s.is_on <;>
    simp [set_rgb_mode, set_white_mode, set_rgb_color, set_white_color,
      innerMsgs, h0, h1, h2, hon]

/-- Witness for mode_switch_frame at an all-success transport and a concrete
starting state. -/
theorem mode_switch_frame_witness :
    (set_rgb_mode (fun _ => true) ⟨true, initialState⟩).state =
      { initialState with mode := "rgb" } ∧
    (set_white_mode (fun _ => true) ⟨true, initialState⟩).state =
      { initialState with mode := "white" } ∧
    (set_rgb_color (fun _ => true) ⟨true, initialState⟩ ⟨10, 20, 30⟩).state.white_color
      = initialState.white_color ∧
    (set_white_color (fun _ => true) ⟨true, initialState⟩ ⟨50, 0⟩).state.rgb_color
      = initialState.rgb_color := by
  have h := mode_switch_frame (fun _ => true) initialState ⟨10, 20, 30⟩ ⟨50, 0⟩
  exact ⟨h.1 (by decide), h.2.1 (by decide), h.2.2.1, h.2.2.2⟩

/-- C4 counterexample: with mode byte 0x28 but an RGB byte of 200, which is
a value a transport read can return, read_state does not decode to the off
state — it raises CommandError, because RGBColor construction validates the
range [0,100]. So read_state can fail because of the byte values read, not
only on transport errors. -/
theorem read_state_range_failure_cex :
    read_state [ MODE_OFF ] [200, 0, 0] [0, 0] =
      .error (.commandError ["Failed to read state"]) := by
  decide

/-- C4 amended: for mode byte decoding the claim holds — is_on is true
exactly for mode bytes in {0xC0, 0xA8, 0xC8} and the mode string follows
the stated table (0x28 giving "off", unrecognized bytes such as 0x99 giving
"unknown") with no failure possible from the mode byte alone — but the
RGB/white contents are only tolerated while each parsed byte lies in
[0,100]: read_state succeeds and reports the decoded colors for in-range
bytes (or omits a color whose read returned fewer bytes than needed), and
raises CommandError for out-of-range color bytes. -/
theorem read_state_decode_spec (mv r g b w k : Int)
    (hr : 0 ≤ r ∧ r ≤ 100) (hg : 0 ≤ g ∧ g ≤ 100) (hb : 0 ≤ b ∧ b ≤ 100)
    (hw : 0 ≤ w ∧ w ≤ 100) (hk : 0 ≤ k ∧ k ≤ 100) :
    read_state [mv] [r, g, b] [w, k] =
      .ok { is_on := decide (mv = MODE_POWER_ON ∨ mv = MODE_RGB ∨ mv = MODE_WHITE),
            mode :=
              if mv = MODE_RGB then "rgb"
              else if mv = MODE_POWER_ON ∨ mv = MODE_WHITE then "white"
              else if mv = MODE_POWER_OFF ∨ mv = MODE_OFF then "off"
              else "unknown",
            rgb_color := some ⟨r, g, b⟩, white_color := some ⟨w, k⟩ } ∧
    read_state [mv] [] [] =
      .ok { is_on := decide (mv = MODE_POWER_ON ∨ mv = MODE_RGB ∨ mv = MODE_WHITE),
            mode :=
              if mv = MODE_RGB then "rgb"
              else if mv = MODE_POWER_ON ∨ mv = MODE_WHITE then "white"
              else if mv = MODE_POWER_OFF ∨ mv = MODE_OFF then "off"
              else "unknown",
            rgb_color := none, white_color := none } := by
  have hrgb : mkRGBColor r g b = .ok ⟨r, g, b⟩ := by
    simp [mkRGBColor, chanInRange, hr.1, hr.2, hg.1, hg.2, hb.1, hb.2]
  have hwhite : mkWhiteColor w k = .ok ⟨w, k⟩ := by
    simp [mkWhiteColor, chanInRange, hw.1, hw.2, hk.1, hk.2]
  by_cases hA : mv = MODE_RGB <;> by_cases hB : mv = MODE_POWER_ON <;>
    by_cases hC : mv = MODE_WHITE <;> by_cases hD : mv = MODE_POWER_OFF <;>
      by_cases hE : mv = MODE_OFF <;>
        simp_all [read_state, MODE_RGB, MODE_POWER_ON, MODE_WHITE, MODE_POWER_OFF,
          MODE_OFF]

/-- Witness for read_state_decode_spec at the unrecognized mode byte 0x99
with in-range color bytes. -/
theorem read_state_decode_spec_witness :
    read_state [0x99] [10, 20, 30] [50, 0] =
      .ok { is_on := false, mode := "unknown", rgb_color := some ⟨10, 20, 30⟩,
            white_color := some ⟨50, 0⟩ } := by
  have h := (read_state_decode_spec 0x99 10 20 30 50 0 (by norm_num) (by norm_num)
    (by norm_num) (by norm_num) (by norm_num)).1
  simpa [ MODE_RGB, MODE_POWER_ON, MODE_WHITE, MODE_POWER_OFF, MODE_OFF] using h

/-- C10: the locally tracked mode is always one of exactly "off", "white",
"rgb", "unknown": the constructor establishes mode="off" with is_on=false;
each command leaves the mode alone or sets it to its own target ("white"
for power_on and set_white_mode/set_white_color, "off" for power_off, "rgb"
for set_rgb_mode/set_rgb_color) whether it succeeds or fails; and
read_state/refresh_state can additionally yield "unknown" but no string
outside the four. -/
theorem mode_field_invariant (ok : Nat → Bool) (s : LampState)
    (rc : RGBColor) (wc : WhiteColor) (mb rb wb : List Int) :
    (initialState.mode = "off" ∧ initialState.is_on = false) ∧
    ((power_on ok ⟨true, s⟩).state.mode = s.mode ∨
      (power_on ok ⟨true, s⟩).state.mode = "white") ∧
    ((power_off ok ⟨true, s⟩).state.mode = s.mode ∨
      (power_off ok ⟨true, s⟩).state.mode = "off") ∧
    ((set_rgb_mode ok ⟨true, s⟩).state.mode = s.mode ∨
      (set_rgb_mode ok ⟨true, s⟩).state.mode = "rgb") ∧
    ((set_white_mode ok ⟨true, s⟩).state.mode = s.mode ∨
      (set_white_mode ok ⟨true, s⟩).state.mode = "white") ∧
    ((set_rgb_color ok ⟨true, s⟩ rc).state.mode = s.mode ∨
      (set_rgb_color ok ⟨true, s⟩ rc).state.mode = "rgb") ∧
    ((set_white_color ok ⟨true, s⟩ wc).state.mode = s.mode ∨
      (set_white_color ok ⟨true, s⟩ wc).state.mode = "white") ∧
    (∀ st, read_state mb rb wb = .ok st → validMode st.mode = true) ∧
    (∀ cl, refresh_state ⟨true, s⟩ mb rb wb = .ok cl →
      validMode cl.state.mode = true) := by
  have hread : ∀ st, read_state mb rb wb = .ok st → validMode st.mode = true := by
    intro st h
    cases mb with
    | nil => simp [read_state] at h
    | cons mv rest =>
      unfold read_state at h
      repeat' split at h
      all_goals simp at h
      all_goals subst h
      all_goals rfl
  refine ⟨⟨rfl, rfl⟩, ?_, ?_, ?_, ?_, ?_, ?_, hread, ?_⟩
  · cases h0 : ok 0 <;> cases h1 : ok 1 <;> cases h2 : ok 2 <;>
      simp [power_on, h0, h1, h2]
  · cases h0 : ok 0 <;> cases h1 : ok 1 <;> cases h2 : ok 2 <;> cases h3 : ok 3 <;>
      simp [power_off, h0, h1, h2, h3]
  · cases h0 : ok 0 <;> simp [set_rgb_mode, h0]
  · cases h0 : ok 0 <;> simp [set_white_mode, h0]
  · cases h0 : ok 0 <;> cases h1 : ok 1 <;> cases h2 : ok 2 <;> cases hon : s.is_on <;>
      simp [set_rgb_color, set_rgb_mode, innerMsgs, h0, h1, h2, hon]
  · cases h0 : ok 0 <;> cases h1 : ok 1 <;> cases h2 : ok 2 <;> cases hon : s.is_on <;>
      simp [set_white_color, set_white_mode, innerMsgs, h0, h1, h2, hon]
  · intro cl hcl
    unfold refresh_state at hcl
    cases hrs : read_state mb rb wb with
    | error e =>
      rw [hrs] at hcl
      exact absurd hcl (by simp [Except.map])
    | ok st =>
      rw [hrs] at hcl
      simp only [Except.map, Except.ok.injEq] at hcl
      subst hcl
      exact hread st hrs

/-- Witness for mode_field_invariant: a successful power_on from the initial
state lands on mode "white", and the state decoded from an unrecognized
mode byte carries a valid mode string. -/
theorem mode_field_invariant_witness :
    ((power_on (fun _ => true) ⟨true, initialState⟩).state.mode = initialState.mode ∨
      (power_on (fun _ => true) ⟨true, initialState⟩).state.mode = "white") ∧
    validMode ({ is_on := false, mode := "unknown", rgb_color := some ⟨10, 20, 30⟩,
                 white_color := some ⟨50, 0⟩ } : LampState).mode = true := by
  have h := mode_field_invariant (fun _ => true) initialState ⟨10, 20, 30⟩ ⟨50, 0⟩
    [0x99] [10, 20, 30] [50, 0]
  exact ⟨h.2.1, h.2.2.2.2.2.2.2.1 _ (by decide)⟩

end Lampster
